import Mathlib

/-!
Shallow embedding of `envkeeper/macro_keeper` (`src/config.rs`).

The repository is a single Rust macro, `config_generator!`, that expands a
declared field schema into: a `OnceLock` config store, a typed struct, a
`from_hashmap` initializer built fieldwise from `__config_field!`, per-field
static getters (`__config_ref_getters!`), and a `Default` impl for the
static reference.

We model the macro expansion generically over a schema: a schema is a list
of field specifications, each either a `String` field (the dedicated first
arm of `__config_field!`) or a parsed field of an arbitrary type with an
arbitrary parse function (modelling `s.parse::<T>().ok()`). The
`HashMap<String, String>` argument is modelled as an association list with
`List.lookup` standing for `HashMap::get`. The `OnceLock` store is modelled
as `Option` state threaded explicitly; `expect`-panics are modelled as
`Except.error` carrying the panic message.
-/

namespace Keeper

/-- Raw Settings Map: the `HashMap<String, String>` input, modelled as an
association list with unique keys; `List.lookup` models `HashMap::get`. -/
abbrev RawMap := List (String × String)

/-- One schema field `(name, type, default)`, split by the two arms of
`__config_field!`: the `String` arm (value cloned verbatim) and the
generic arm (value run through the type's parse, modelled as an arbitrary
`String → Option t` function standing for `s.parse::<T>().ok()`). -/
inductive FieldSpec : Type 1 where
  | str (name : String) (dflt : String)
  | parsed (t : Type) (name : String) (dflt : t) (parse : String → Option t)

/-- Declared name of a field. -/
def FieldSpec.name : FieldSpec → String
  | .str n _ => n
  | .parsed _ n _ _ => n

/-- Value type of a field. -/
@[reducible] def FieldSpec.ty : FieldSpec → Type
  | .str _ _ => String
  | .parsed t _ _ _ => t

/-- Declared default value of a field. -/
def FieldSpec.dflt : (f : FieldSpec) → f.ty
  | .str _ d => d
  | .parsed _ _ d _ => d

/-- `__config_field!` (config.rs lines 31-42): for the `String` arm,
`hash.get(key).cloned().unwrap_or(default)`; for any other type,
`hash.get(key).and_then(|s| s.parse::<T>().ok()).unwrap_or(default)`. -/
def extractField : (f : FieldSpec) → RawMap → f.ty
  | .str n d, m => (List.lookup n m).getD d
  | .parsed _ n d p, m => ((List.lookup n m).bind p).getD d

/-- A configuration schema: the ordered field list passed to
`config_generator!`. -/
abbrev Schema := List FieldSpec

/-- The generated struct `$object`: one typed value per schema field. -/
def ConfigInstance (s : Schema) : Type :=
  (i : Fin s.length) → (s.get i).ty

/-- The fieldwise body of `from_hashmap`: each field is produced by
`__config_field!` independently of every other field. -/
def computeInstance (s : Schema) (m : RawMap) : ConfigInstance s :=
  fun i => extractField (s.get i) m

/-- The all-defaults instance: every field set to its declared default. -/
def defaultsInstance (s : Schema) : ConfigInstance s :=
  fun i => (s.get i).dflt

/-- The Config Store: the `OnceLock<$object>` static, holding zero or one
instance. -/
abbrev Store (s : Schema) := Option (ConfigInstance s)

/-- `get` (config.rs lines 120-122):
`$static_name.get().expect("Config not initialized. ...")`. The `expect`
panic on an empty store is modelled as `Except.error` with the panic
message. -/
def getStore (s : Schema) (store : Store s) : Except String (ConfigInstance s) :=
  match store with
  | some v => .ok v
  | none => .error "Config not initialized. Did you forget to call from_hashmap()?"

/-- `OnceLock::set`: succeeds exactly when the store is empty; a full
store makes `set` fail, which `new` turns into the
"Config already initialized." panic via `expect`. -/
def setStore (s : Schema) (store : Store s) (inst : ConfigInstance s) :
    Except String (Store s) :=
  match store with
  | some _ => .error "Config already initialized."
  | none => .ok (some inst)

/-- `new` (config.rs lines 125-129): build the struct, `set` it into the
store (panicking with "Config already initialized." when `set` fails),
then return `Self::get()`. Returns the instance together with the store
state after the call. -/
def newConfig (s : Schema) (store : Store s) (inst : ConfigInstance s) :
    Except String (ConfigInstance s × Store s) :=
  match setStore s store inst with
  | .error e => .error e
  | .ok store2 =>
    match getStore s store2 with
    | .ok v => .ok (v, store2)
    | .error e => .error e

/-- `from_hashmap` (config.rs lines 141-152): default the optional map,
compute every field by `__config_field!`, then if the store is already
populated return `Self::get()` (discarding the computed values), else
call `new`. Returns the instance together with the store state after
the call. -/
def from_hashmap (s : Schema) (store : Store s) (hash : Option RawMap) :
    Except String (ConfigInstance s × Store s) :=
  let h := hash.getD []
  let inst := computeInstance s h
  if store.isSome then
    match getStore s store with
    | .ok v => .ok (v, store)
    | .error e => .error e
  else
    newConfig s store inst

/-- One generated getter from `__config_ref_getters!` (config.rs lines
10-19): `Self::get()` followed by projection to the field. -/
def ref_getter (s : Schema) (i : Fin s.length) (store : Store s) :
    Except String (s.get i).ty :=
  match getStore s store with
  | .ok v => .ok (v i)
  | .error e => .error e

/-- `Default for &'static $object` (config.rs lines 159-163):
`$object::new($default, ...)` with every declared default, taking no map. -/
def default_instance (s : Schema) (store : Store s) :
    Except String (ConfigInstance s × Store s) :=
  newConfig s store (defaultsInstance s)

/-- The operations an application can perform against one schema's store. -/
inductive Op (s : Schema) where
  | fromHashmap (hash : Option RawMap)
  | getter (i : Fin s.length)
  | defaultCtor

/-- Store state after one operation. A failed (panicking) operation leaves
the `OnceLock` contents as they were. -/
def stepStore (s : Schema) (store : Store s) : Op s → Store s
  | .fromHashmap h =>
    match from_hashmap s store h with
    | .ok r => r.2
    | .error _ => store
  | .getter _ => store
  | .defaultCtor =>
    match default_instance s store with
    | .ok r => r.2
    | .error _ => store

/-- Store state after a sequence of operations. -/
def runOps (s : Schema) (store : Store s) (ops : List (Op s)) : Store s :=
  ops.foldl (stepStore s) store

/-! Concrete schema used by the repository's tests and the spec's concrete
scenarios: `{log_level: LogLevel = Info, buffer_capacity: usize = 1024,
environment: String = "production"}`. -/

/-- The `LogLevel` enum from `tests/config_test.rs`. -/
inductive LogLevel where
  | debug
  | info
  | warn
  | error
deriving DecidableEq

/-- `FromStr for LogLevel` from `tests/config_test.rs`: recognizes exactly
the four labels, rejects everything else. -/
def logLevelFromStr : String → Option LogLevel
  | "Debug" => some .debug
  | "Info" => some .info
  | "Warn" => some .warn
  | "Error" => some .error
  | _ => none

/-- Value of one decimal digit character, by its code point. -/
def digitVal (c : Char) : Option Nat :=
  if 48 ≤ c.toNat ∧ c.toNat ≤ 57 then some (c.toNat - 48) else none

/-- Accumulate decimal digits; any non-digit character rejects the whole
string. -/
def parseDigits : List Char → Nat → Option Nat
  | [], acc => some acc
  | c :: cs, acc =>
    match digitVal c with
    | some d => parseDigits cs (acc * 10 + d)
    | none => none

/-- The canonical textual parse of `usize` (`str::parse::<usize>()`): an
optional leading plus sign followed by one or more decimal digits; this
std-library parse is external to the repository and modelled here. -/
def parseUsize (s : String) : Option Nat :=
  match s.data with
  | [] => none
  | '+' :: cs => if cs.isEmpty then none else parseDigits cs 0
  | cs => parseDigits cs 0

/-- The `AppConfig` schema declared in `tests/config_test.rs`. `usize`
parsing is modelled by `parseUsize`. -/
def appConfigSchema : Schema :=
  [ .parsed LogLevel "log_level" .info logLevelFromStr,
    .parsed Nat "buffer_capacity" 1024 parseUsize,
    .str "environment" "production" ]

/-- The map of the test `test_config_from_hashmap`, restricted to one key. -/
def mapDebug : RawMap := [("log_level", "Debug")]

/-- The map of the test `test_config_with_extra_keys`, without the extra
key. -/
def mFull : RawMap :=
  [("log_level", "Warn"), ("buffer_capacity", "4096"), ("environment", "staging")]

/-- The map of the spec's invalid-field scenario: an unrecognized
enumeration label alongside valid entries for the other two fields. -/
def mInvalid : RawMap :=
  [("log_level", "InvalidLevel"), ("buffer_capacity", "2048"),
   ("environment", "development")]

/-! Helper lemmas shared by the claim theorems. -/

theorem extractField_of_lookup_none (f : FieldSpec) (m : RawMap)
    (h : List.lookup f.name m = none) : extractField f m = f.dflt := by
  cases f with
  | str n d =>
    show (List.lookup n m).getD d = d
    rw [show List.lookup n m = none from h]
    rfl
  | parsed t n d p =>
    show ((List.lookup n m).bind p).getD d = d
    rw [show List.lookup n m = none from h]
    rfl

theorem computeInstance_eq_defaults (s : Schema) (m : RawMap)
    (h : ∀ f ∈ s, List.lookup f.name m = none) :
    computeInstance s m = defaultsInstance s := by
  funext i
  exact extractField_of_lookup_none (s.get i) m (h _ (List.get_mem s i.1 i.2))

theorem extractField_congr (f : FieldSpec) (m1 m2 : RawMap)
    (h : List.lookup f.name m1 = List.lookup f.name m2) :
    extractField f m1 = extractField f m2 := by
  cases f <;> simp_all [extractField, FieldSpec.name]

theorem lookup_cons_ne (n k v : String) (m : RawMap) (h : n ≠ k) :
    List.lookup n ((k, v) :: m) = List.lookup n m := by
  simp [List.lookup, beq_eq_false_iff_ne.mpr h]

theorem lookup_filter_ne (n k : String) (m : RawMap) (h : n ≠ k) :
    List.lookup n (m.filter (fun e => e.1 != k)) = List.lookup n m := by
  induction m with
  | nil => rfl
  | cons a rest ih =>
    rcases a with ⟨ka, va⟩
    by_cases hk : ka = k
    · subst hk
      have hne : (n == ka) = false := beq_eq_false_iff_ne.mpr h
      simp [List.filter, List.lookup, hne, ih]
    · have hkeep : (ka != k) = true := by simp [bne, hk]
      by_cases hn : n = ka
      · subst hn
        simp [List.filter, hkeep, List.lookup]
      · have hne : (n == ka) = false := beq_eq_false_iff_ne.mpr hn
        simp [List.filter, hkeep, List.lookup, hne, ih]

theorem stepStore_some (s : Schema) (v : ConfigInstance s) (op : Op s) :
    stepStore s (some v) op = some v := by
  cases op <;> rfl

/-! The claim theorems. -/

/-- C1: per-field semantics of `__config_field!`: an absent key yields the
declared default (both arms); a present key on a `String` field yields the
map's string verbatim; a present key on any other field yields the
canonical parse result when the parse succeeds and the declared default
when it fails — the extraction is total, so no error reaches the caller of
initialization. -/
theorem c1_field_parse_with_fallback (m : RawMap) :
    (∀ f : FieldSpec, List.lookup f.name m = none → extractField f m = f.dflt) ∧
    (∀ n d v : String, List.lookup n m = some v →
      extractField (.str n d) m = v) ∧
    (∀ (t : Type) (n : String) (d : t) (p : String → Option t) (v : String),
      List.lookup n m = some v →
      extractField (.parsed t n d p) m = (p v).getD d) := by
  refine ⟨fun f h => extractField_of_lookup_none f m h, ?_, ?_⟩
  · intro n d v h
    simp [extractField, h]
  · intro t n d p v h
    simp [extractField, h]

/-- Witness for C1 at the spec's concrete schema: absent key gives the
default, present text key is verbatim, a parseable number parses, an
unrecognized enumeration label falls back to the default. -/
theorem c1_field_parse_with_fallback_witness :
    extractField (.str "environment" "production") [] = "production" ∧
    extractField (.str "environment" "production")
      [("environment", "development")] = "development" ∧
    (extractField (.parsed Nat "buffer_capacity" 1024 parseUsize)
      [("buffer_capacity", "2048")] : Nat) = 2048 ∧
    (extractField (.parsed LogLevel "log_level" .info logLevelFromStr)
      [("log_level", "InvalidLevel")] : LogLevel) = LogLevel.info := by
  refine ⟨?_, ?_, ?_, ?_⟩
  · exact (c1_field_parse_with_fallback []).1 (.str "environment" "production") rfl
  · exact (c1_field_parse_with_fallback [("environment", "development")]).2.1
      "environment" "production" "development" rfl
  · exact ((c1_field_parse_with_fallback [("buffer_capacity", "2048")]).2.2 Nat
      "buffer_capacity" 1024 parseUsize "2048" rfl).trans (by decide)
  · exact ((c1_field_parse_with_fallback [("log_level", "InvalidLevel")]).2.2
      LogLevel "log_level" LogLevel.info logLevelFromStr "InvalidLevel"
      rfl).trans (by decide)

/-- C2: after a first successful `from_hashmap`, a second sequential call
with any optional map is a no-op: the store already holds the first
instance, so the `is_some` guard returns `Self::get()` unchanged,
discarding the newly computed field values, and no fatal error occurs. -/
theorem c2_second_call_idempotent (s : Schema) (v : ConfigInstance s)
    (st : Store s) (h1 h2 : Option RawMap)
    (hfirst : from_hashmap s none h1 = .ok (v, st)) :
    st = some v ∧ from_hashmap s st h2 = .ok (v, st) := by
  have hshape : from_hashmap s none h1
      = .ok (computeInstance s (h1.getD []),
             some (computeInstance s (h1.getD []))) := rfl
  rw [hshape] at hfirst
  simp only [Except.ok.injEq, Prod.mk.injEq] at hfirst
  obtain ⟨hv, hst⟩ := hfirst
  subst hv
  subst hst
  exact ⟨rfl, rfl⟩

/-- Witness for C2: the first call initializes from the one-key map, the
second call with a full map still returns the first instance. -/
theorem c2_second_call_idempotent_witness :
    from_hashmap appConfigSchema
      (some (computeInstance appConfigSchema mapDebug)) (some mFull)
      = .ok (computeInstance appConfigSchema mapDebug,
             some (computeInstance appConfigSchema mapDebug)) :=
  (c2_second_call_idempotent appConfigSchema
    (computeInstance appConfigSchema mapDebug)
    (some (computeInstance appConfigSchema mapDebug))
    (some mapDebug) (some mFull) rfl).2

/-- C3: every generated getter, and the store's `get()`, fails fatally
with the uninitialized-access diagnostic when called before any
initialization; on an empty store the result is that error, never a
silently returned value. -/
theorem c3_getter_before_init_fails (s : Schema) (i : Fin s.length) :
    ref_getter s i none
      = .error "Config not initialized. Did you forget to call from_hashmap()?" ∧
    getStore s (none : Store s)
      = .error "Config not initialized. Did you forget to call from_hashmap()?" :=
  ⟨rfl, rfl⟩

/-- C4: write-once invariant: once the store holds an instance, any
sequence of `from_hashmap` calls, getter calls and default-instance
constructions leaves the store holding exactly that instance — it never
empties and its contents never change. -/
theorem c4_write_once (s : Schema) (v : ConfigInstance s) (ops : List (Op s)) :
    runOps s (some v) ops = some v := by
  induction ops with
  | nil => rfl
  | cons op rest ih =>
    show List.foldl (stepStore s) (stepStore s (some v) op) rest = some v
    rw [stepStore_some]
    exact ih

/-- C5 counterexample: with the store already initialized (here with the
all-defaults instance), the `Default` constructor calls `new`, whose
`set(...).expect("Config already initialized.")` fails: the call ends in a
fatal error instead of completing without one and returning the stored
instance. -/
theorem c5_default_ctor_already_initialized :
    default_instance appConfigSchema (some (defaultsInstance appConfigSchema))
      = .error "Config already initialized." := rfl

/-- C5 (amended): on an empty store the default-instance constructor
initializes every field to its declared default (it takes no map, so any
external map is ignored); on an already-initialized store it fails fatally
with the "Config already initialized." diagnostic, and the store contents
are left unchanged. -/
theorem c5_default_ctor (s : Schema) :
    default_instance s none
      = .ok (defaultsInstance s, some (defaultsInstance s)) ∧
    (∀ v : ConfigInstance s,
      default_instance s (some v) = .error "Config already initialized.") ∧
    (∀ v : ConfigInstance s, stepStore s (some v) .defaultCtor = some v) :=
  ⟨rfl, fun _ => rfl, fun _ => rfl⟩

/-- C6: `from_hashmap` with an absent map, or with a map containing no key
matching any schema field name, produces the all-defaults instance. -/
theorem c6_absent_or_unmatched_map_gives_defaults (s : Schema) (m : RawMap)
    (hm : ∀ f ∈ s, List.lookup f.name m = none) :
    from_hashmap s none none
      = .ok (defaultsInstance s, some (defaultsInstance s)) ∧
    from_hashmap s none (some m)
      = .ok (defaultsInstance s, some (defaultsInstance s)) := by
  have hempty : computeInstance s ([] : RawMap) = defaultsInstance s :=
    computeInstance_eq_defaults s [] (fun _ _ => rfl)
  have hm2 : computeInstance s m = defaultsInstance s :=
    computeInstance_eq_defaults s m hm
  constructor
  · show Except.ok (computeInstance s ([] : RawMap),
      some (computeInstance s ([] : RawMap))) = _
    rw [hempty]
  · show Except.ok (computeInstance s m, some (computeInstance s m)) = _
    rw [hm2]

/-- Witness for C6: a map holding only a key foreign to the schema yields
the all-defaults instance. -/
theorem c6_absent_or_unmatched_map_gives_defaults_witness :
    from_hashmap appConfigSchema none (some [("extra_key", "x")])
      = .ok (defaultsInstance appConfigSchema,
             some (defaultsInstance appConfigSchema)) := by
  refine (c6_absent_or_unmatched_map_gives_defaults appConfigSchema
    [("extra_key", "x")] ?_).2
  intro f hf
  simp only [appConfigSchema, List.mem_cons, List.not_mem_nil, or_false] at hf
  rcases hf with rfl | rfl | rfl <;> rfl

/-- C7: a parse failure in one field is local: the failing field falls
back to its declared default, while every other field still receives its
own `__config_field!` result — a parsed field with a valid entry gets the
parsed value and a text field with a present entry gets the string
verbatim, regardless of the failing field. -/
theorem c7_parse_failure_is_local (s : Schema) (m : RawMap) (j : Fin s.length)
    (t : Type) (n : String) (d : t) (p : String → Option t) (v : String)
    (hj : s.get j = .parsed t n d p)
    (hv : List.lookup n m = some v) (hp : p v = none) :
    HEq (computeInstance s m j) d ∧
    (∀ (k : Fin s.length) (t2 : Type) (n2 : String) (d2 : t2)
        (p2 : String → Option t2) (v2 : String) (w : t2),
      s.get k = .parsed t2 n2 d2 p2 → List.lookup n2 m = some v2 →
      p2 v2 = some w → HEq (computeInstance s m k) w) ∧
    (∀ (k : Fin s.length) (n2 d2 v2 : String),
      s.get k = .str n2 d2 → List.lookup n2 m = some v2 →
      HEq (computeInstance s m k) v2) := by
  refine ⟨?_, ?_, ?_⟩
  · show HEq (extractField (s.get j) m) d
    rw [hj]
    simp [extractField, hv, hp]
  · intro k t2 n2 d2 p2 v2 w hk hv2 hw
    show HEq (extractField (s.get k) m) w
    rw [hk]
    simp [extractField, hv2, hw]
  · intro k n2 d2 v2 hk hv2
    show HEq (extractField (s.get k) m) v2
    rw [hk]
    simp [extractField, hv2]

/-- Witness for C7 at the spec's invalid-field scenario: the unrecognized
log level falls back to `Info`, while the other two fields take their map
values. -/
theorem c7_parse_failure_is_local_witness :
    (computeInstance appConfigSchema mInvalid ⟨0, by decide⟩ : LogLevel)
      = LogLevel.info ∧
    (computeInstance appConfigSchema mInvalid ⟨1, by decide⟩ : Nat) = 2048 ∧
    (computeInstance appConfigSchema mInvalid ⟨2, by decide⟩ : String)
      = "development" := by
  obtain ⟨h1, h2, h3⟩ := c7_parse_failure_is_local appConfigSchema mInvalid
    ⟨0, by decide⟩ LogLevel "log_level" LogLevel.info logLevelFromStr
    "InvalidLevel" rfl rfl rfl
  exact ⟨eq_of_heq h1,
    eq_of_heq (h2 ⟨1, by decide⟩ Nat "buffer_capacity" 1024 parseUsize
      "2048" 2048 rfl (by decide) (by decide)),
    eq_of_heq (h3 ⟨2, by decide⟩ "environment" "production" "development"
      rfl rfl)⟩

/-- C8: map entries whose keys match no schema field name are inert:
adding such an entry, or removing all entries under such a key, leaves
the computed instance unchanged, and initialization on an empty store
never fails whatever the map contains. -/
theorem c8_unknown_keys_ignored (s : Schema) (m : RawMap) (k v : String)
    (hk : ∀ f ∈ s, f.name ≠ k) :
    computeInstance s ((k, v) :: m) = computeInstance s m ∧
    computeInstance s (m.filter (fun e => e.1 != k)) = computeInstance s m ∧
    (∀ hash : Option RawMap, ∃ r, from_hashmap s none hash = .ok r) := by
  refine ⟨?_, ?_, fun hash => ⟨_, rfl⟩⟩
  · funext i
    exact extractField_congr _ _ _
      (lookup_cons_ne _ k v m (hk _ (List.get_mem s i.1 i.2)))
  · funext i
    exact extractField_congr _ _ _
      (lookup_filter_ne _ k m (hk _ (List.get_mem s i.1 i.2)))

/-- Witness for C8 at the extra-keys test scenario: prepending the
`extra_key` entry leaves the computed instance unchanged. -/
theorem c8_unknown_keys_ignored_witness :
    computeInstance appConfigSchema (("extra_key", "should_be_ignored") :: mFull)
      = computeInstance appConfigSchema mFull := by
  refine (c8_unknown_keys_ignored appConfigSchema mFull "extra_key"
    "should_be_ignored" ?_).1
  intro f hf
  simp only [appConfigSchema, List.mem_cons, List.not_mem_nil, or_false] at hf
  rcases hf with rfl | rfl | rfl <;> decide

/-- C10: for a text field, a present value is used verbatim even when it
is the empty string; the declared default is used only when the key is
absent. -/
theorem c10_empty_string_verbatim (n d : String) :
    (∀ m : RawMap, List.lookup n m = some "" →
      extractField (.str n d) m = "") ∧
    (∀ m : RawMap, List.lookup n m = none →
      extractField (.str n d) m = d) := by
  constructor <;> intro m h <;> simp [extractField, h]

/-- Witness for C10: the environment field mapped to the empty string
yields the empty string, not the default. -/
theorem c10_empty_string_verbatim_witness :
    extractField (.str "environment" "production") [("environment", "")] = "" :=
  (c10_empty_string_verbatim "environment" "production").1
    [("environment", "")] rfl

end Keeper
